import Mathlib

/-!
Verification of the snapshot-diff synchronization plugin (main.py).

The program keeps a local package directory consistent with a remote store.
A SynchronizerPlugin wraps two hooks around a unit of work: before it, the
StorageClient pulls all remote files and captures a snapshot of the local
directory; after it, the client recomputes the local listing, diffs it
against the snapshot, and emits two ContentChangeEvents (a removal event and
an addition event) which replay the difference through a pluggable file store
driver.

The embedding below is shallow: Python sets of file names become Finset
String, Python exceptions become the error side of Except PyError, and the
pluggable driver object becomes a record of pure operations whose results
model the outcome of the corresponding I/O calls.  Iteration order over a
Python set is arbitrary but fixed; it is modelled by iterating a sorted
listing of the Finset.  The generator returned by get_change_events is
modelled by a ChangeEventGenerator value whose body runs only when the
generator is forced, matching the laziness of a Python generator.
-/

/-- File names, as listed by os.listdir. -/
abbrev Name := String

/-- The Python exceptions the program can raise or catch.  ValueError carries
the message passed at the raise site; osError stands for any OSError family
failure of a filesystem or network call; typeError models iterating None;
notImplementedError models the abstract-method guards. -/
inductive PyError where
  | valueError (msg : String)
  | osError
  | typeError
  | notImplementedError (msg : String)
  deriving DecidableEq

/-- Whether an Except value is a success, i.e. whether the modelled Python
expression evaluated without raising. -/
def exceptIsOk {α : Type} (r : Except PyError α) : Bool :=
  match r with
  | Except.ok _ => true
  | Except.error _ => false

/-- The iteration order of a Python set, modelled as a fixed (sorted) listing
of the Finset.  Python guarantees no particular order; every property proved
below is insensitive to the order chosen. -/
def pySetToList (s : Finset Name) : List Name :=
  s.sort (fun a b => a ≤ b)

/-- The file store driver interface consumed by StorageClient: the methods of
a _file_store_driver object (get_local_file_listing, upload_to_remote,
remove_from_remote, pull_all_remote_files).  Each operation may raise, which
the Except error side records; the Bool results of the transfer operations
are the per-file success flags the concrete managers return. -/
structure FileStoreDriver where
  get_local_file_listing : Except PyError (Finset Name)
  upload_to_remote : Name → Except PyError Bool
  remove_from_remote : Name → Except PyError Bool
  pull_all_remote_files : Except PyError (List Bool)

/-- The _type tag of a ContentChangeEvent: REMOVAL, ADDITION, or the base
class value ANY ("n/a"). -/
inductive ChangeType where
  | removal
  | addition
  | any
  deriving DecidableEq

/-- A ContentChangeEvent: the _type tag (which in the source is fixed by the
concrete subclass), the _file_store_driver the subclass constructors store,
and the _difference name set (None by default, hence the Option). -/
structure ContentChangeEvent where
  change_type : ChangeType
  file_store_driver : FileStoreDriver
  difference : Option (Finset Name)

/-- ContentChangeEvent.handle, dispatched by subclass: RemovalChangeEvent
delegates to remove_from_remote, AdditionChangeEvent to upload_to_remote,
and the base class raises NotImplementedError.  The subclass is identified
by the _type tag, which the constructors keep in bijection with the class. -/
def ContentChangeEvent.handle (e : ContentChangeEvent) (file_name : Name) :
    Except PyError Bool :=
  match e.change_type with
  | ChangeType.removal => e.file_store_driver.remove_from_remote file_name
  | ChangeType.addition => e.file_store_driver.upload_to_remote file_name
  | ChangeType.any =>
      Except.error (PyError.notImplementedError
        "Subclasses must implement a change handler")

/-- The list comprehension inside ContentChangeEvent.process: evaluate the
handler on each name in order, collecting the Bool results, and abort with
the first exception raised. -/
def runHandles (h : Name → Except PyError Bool) : List Name → Except PyError (List Bool)
  | [] => Except.ok []
  | n :: ns =>
    match h n with
    | Except.error err => Except.error err
    | Except.ok b =>
      match runHandles h ns with
      | Except.error err => Except.error err
      | Except.ok results => Except.ok (b :: results)

/-- The names on which the comprehension inside process actually invokes the
handler (hence the driver), in order: all of them when no handler raises,
and the prefix up to and including the first raising one otherwise. -/
def handledNames (h : Name → Except PyError Bool) : List Name → List Name
  | [] => []
  | n :: ns =>
    match h n with
    | Except.error _ => [n]
    | Except.ok _ => n :: handledNames h ns

/-- ContentChangeEvent.process: run the handler over the difference set and
return True when nothing raised, False when an exception was caught.  When
_difference is None the for-loop itself raises TypeError, which the same
except clause converts to False. -/
def ContentChangeEvent.process (e : ContentChangeEvent) : Bool :=
  match e.difference with
  | none => false
  | some d => exceptIsOk (runHandles e.handle (pySetToList d))

/-- The driver invocations performed by ContentChangeEvent.process, as the
list of names passed to the handler (each one is exactly one driver call of
the kind selected by the event type). -/
def ContentChangeEvent.driverInvocations (e : ContentChangeEvent) : List Name :=
  match e.difference with
  | none => []
  | some d => handledNames e.handle (pySetToList d)

/-- StorageClient state: the _file_storage driver and the
_current_local_contents attribute, initialised to None and set by
store_local_snapshot. -/
structure StorageClient where
  file_storage : FileStoreDriver
  current_local_contents : Option (Finset Name)

/-- StorageClient.get_local_contents: the set of the driver local listing. -/
def StorageClient.get_local_contents (c : StorageClient) :
    Except PyError (Finset Name) :=
  c.file_storage.get_local_file_listing

/-- StorageClient.pull_remote_files: delegate to the driver. -/
def StorageClient.pull_remote_files (c : StorageClient) :
    Except PyError (List Bool) :=
  c.file_storage.pull_all_remote_files

/-- StorageClient.store_local_snapshot: read the local contents and store
them in _current_local_contents, replacing any previous snapshot. -/
def StorageClient.store_local_snapshot (c : StorageClient) :
    Except PyError StorageClient :=
  match c.get_local_contents with
  | Except.error e => Except.error e
  | Except.ok s => Except.ok { c with current_local_contents := some s }

/-- StorageClient.get_last_local_snapshot.  The source guards with the
truthiness test "if not self._current_local_contents", which holds both when
the attribute is still None and when it holds an empty set; in both cases a
ValueError is raised.  Only a stored nonempty snapshot is returned. -/
def StorageClient.get_last_local_snapshot (c : StorageClient) :
    Except PyError (Finset Name) :=
  match c.current_local_contents with
  | none => Except.error (PyError.valueError "Local snapshot have not been stored!")
  | some s =>
    if s = ∅ then
      Except.error (PyError.valueError "Local snapshot have not been stored!")
    else
      Except.ok s

/-- The generator object returned by calling get_change_events.  Creating it
runs none of the body; it only closes over self. -/
structure ChangeEventGenerator where
  client : StorageClient

/-- StorageClient.get_change_events: being a generator function, the call
itself always succeeds and returns a generator closed over the client; the
body runs only when the generator is iterated. -/
def StorageClient.get_change_events (c : StorageClient) : ChangeEventGenerator :=
  { client := c }

/-- Running the body of the get_change_events generator to exhaustion: fetch
the last snapshot (which may raise), re-read the current local contents
(which may raise), form the two set differences, and yield the
RemovalChangeEvent followed by the AdditionChangeEvent.  Any exception is
raised before the first event is yielded, so a failing body yields no
events at all. -/
def ChangeEventGenerator.force (g : ChangeEventGenerator) :
    Except PyError (List ContentChangeEvent) :=
  match g.client.get_last_local_snapshot with
  | Except.error e => Except.error e
  | Except.ok last_snapshot =>
    match g.client.get_local_contents with
    | Except.error e => Except.error e
    | Except.ok current_contents =>
      Except.ok
        [ { change_type := ChangeType.removal
            file_store_driver := g.client.file_storage
            difference := some (last_snapshot \ current_contents) },
          { change_type := ChangeType.addition
            file_store_driver := g.client.file_storage
            difference := some (current_contents \ last_snapshot) } ]

/-- Requesting the first event from the generator: the body runs up to the
first yield, so an exception in the body surfaces here. -/
def ChangeEventGenerator.next_event (g : ChangeEventGenerator) :
    Except PyError (Option ContentChangeEvent) :=
  match g.force with
  | Except.error e => Except.error e
  | Except.ok evs => Except.ok evs.head?

/-- StorageClient.upload_to_remote: process the given change event. -/
def StorageClient.upload_to_remote (_c : StorageClient)
    (change_event : ContentChangeEvent) : Bool :=
  change_event.process

/-- The SynchronizerPlugin, holding its storage_client. -/
structure SynchronizerPlugin where
  storage_client : StorageClient

/-- SynchronizerPlugin.sync_data_before_change: pull all remote files, then
capture the local snapshot.  There is no try block here: a failure of either
step propagates to the caller of the hook.  The returned plugin carries the
updated client state. -/
def SynchronizerPlugin.sync_data_before_change (p : SynchronizerPlugin) :
    Except PyError SynchronizerPlugin :=
  match p.storage_client.pull_remote_files with
  | Except.error e => Except.error e
  | Except.ok _ =>
    match p.storage_client.store_local_snapshot with
    | Except.error e => Except.error e
    | Except.ok c => Except.ok { storage_client := c }

/-- SynchronizerPlugin.sync_data_after_change: iterate the change-event
generator, processing each event through upload_to_remote and collecting the
Bool results.  There is no try block here either: an exception raised while
the generator produces the events propagates, while event processing itself
never raises (process catches internally). -/
def SynchronizerPlugin.sync_data_after_change (p : SynchronizerPlugin) :
    Except PyError (List Bool) :=
  match (p.storage_client.get_change_events).force with
  | Except.error e => Except.error e
  | Except.ok change_events =>
    Except.ok (change_events.map (fun ev => p.storage_client.upload_to_remote ev))

/-- The filesystem and copy primitives the LocalFileStoreManager invokes:
os.listdir on a directory, shutil.copy from a source to a target path, and
os.remove on a target path.  Each may raise; the record fixes the outcome of
each call for the scenario under consideration. -/
structure LocalFS where
  listdir : String → Except PyError (Finset Name)
  shutil_copy : String → String → Except PyError Unit
  os_remove : String → Except PyError Unit

/-- A StandardFileStoreManager holds the _local_directory and
_remote_directory roots. -/
structure StandardFileStoreManager where
  local_directory : String
  remote_directory : String

/-- Python str.rstrip with the "/" argument: drop every trailing slash. -/
def rstripSlash (s : String) : String :=
  String.mk ((s.toList.reverse.dropWhile (fun ch => ch = '/')).reverse)

/-- StandardFileStoreManager.sync_directory_path: the remote root with
trailing slashes stripped. -/
def StandardFileStoreManager.sync_directory_path (m : StandardFileStoreManager) :
    String :=
  rstripSlash m.remote_directory

/-- StandardFileStoreManager.source_directory_path: the local root with
trailing slashes stripped. -/
def StandardFileStoreManager.source_directory_path (m : StandardFileStoreManager) :
    String :=
  rstripSlash m.local_directory

/-- StandardFileStoreManager._get_remote_target_path: remote root, a slash,
then the file name. -/
def StandardFileStoreManager.get_remote_target_path (m : StandardFileStoreManager)
    (file_name : Name) : String :=
  m.sync_directory_path ++ "/" ++ file_name

/-- StandardFileStoreManager._get_local_target_path: local root, a slash,
then the file name. -/
def StandardFileStoreManager.get_local_target_path (m : StandardFileStoreManager)
    (file_name : Name) : String :=
  m.source_directory_path ++ "/" ++ file_name

namespace LocalFileStoreManager

/-- LocalFileStoreManager._copy_file: shutil.copy inside a bare try. True on
success; any exception is swallowed and becomes False. -/
def copy_file (fs : LocalFS) (src trg : String) : Bool :=
  match fs.shutil_copy src trg with
  | Except.ok _ => true
  | Except.error _ => false

/-- LocalFileStoreManager._remove_file: os.remove inside a bare try.  True on
success; any exception is swallowed and becomes False. -/
def remove_file (fs : LocalFS) (trg : String) : Bool :=
  match fs.os_remove trg with
  | Except.ok _ => true
  | Except.error _ => false

/-- LocalFileStoreManager.get_remote_file_names: the set of names listed at
the remote root.  The os.listdir call may raise, and nothing catches it. -/
def get_remote_file_names (fs : LocalFS) (m : StandardFileStoreManager) :
    Except PyError (Finset Name) :=
  fs.listdir m.sync_directory_path

/-- LocalFileStoreManager.get_local_file_listing: the set of names listed at
the local root. -/
def get_local_file_listing (fs : LocalFS) (m : StandardFileStoreManager) :
    Except PyError (Finset Name) :=
  fs.listdir m.source_directory_path

/-- LocalFileStoreManager.copy_from_remote: copy one file from the remote
path to the local path; never raises, because _copy_file catches. -/
def copy_from_remote (fs : LocalFS) (m : StandardFileStoreManager)
    (file_name : Name) : Bool :=
  copy_file fs (m.get_remote_target_path file_name) (m.get_local_target_path file_name)

/-- LocalFileStoreManager.upload_to_remote: copy one file from the local path
to the remote path; never raises. -/
def upload_to_remote (fs : LocalFS) (m : StandardFileStoreManager)
    (file_name : Name) : Bool :=
  copy_file fs (m.get_local_target_path file_name) (m.get_remote_target_path file_name)

/-- LocalFileStoreManager.remove_from_remote: remove the file at the remote
path; never raises. -/
def remove_from_remote (fs : LocalFS) (m : StandardFileStoreManager)
    (file_name : Name) : Bool :=
  remove_file fs (m.get_remote_target_path file_name)

/-- StandardFileStoreManager.pull_all_remote_files as executed by the local
manager: enumerate the remote names, then copy each one, collecting the
per-file flags.  The surrounding try re-raises whatever it catches, so an
enumeration failure propagates unchanged, and nothing else here can raise
since copy_from_remote returns a Bool. -/
def pull_all_remote_files (fs : LocalFS) (m : StandardFileStoreManager) :
    Except PyError (List Bool) :=
  match get_remote_file_names fs m with
  | Except.error e => Except.error e
  | Except.ok remote_files =>
    Except.ok ((pySetToList remote_files).map (fun n => copy_from_remote fs m n))

end LocalFileStoreManager

/-- The FileStoreDriver view of a LocalFileStoreManager, as consumed by
StorageClient: the transfer operations never raise (their exceptions are
converted to False internally), while the listing operations may. -/
def localDriver (fs : LocalFS) (m : StandardFileStoreManager) : FileStoreDriver where
  get_local_file_listing := LocalFileStoreManager.get_local_file_listing fs m
  upload_to_remote := fun n => Except.ok (LocalFileStoreManager.upload_to_remote fs m n)
  remove_from_remote := fun n => Except.ok (LocalFileStoreManager.remove_from_remote fs m n)
  pull_all_remote_files := LocalFileStoreManager.pull_all_remote_files fs m

/-- The comprehension succeeds exactly when every handler call succeeds. -/
theorem runHandles_isOk (h : Name → Except PyError Bool) (l : List Name) :
    exceptIsOk (runHandles h l) = l.all (fun n => exceptIsOk (h n)) := by
  induction l with
  | nil => rfl
  | cons n ns ih =>
    simp only [runHandles, List.all_cons]
    cases hn : h n with
    | error err => simp [exceptIsOk]
    | ok b =>
      cases hr : runHandles h ns with
      | error err =>
        rw [← ih, hr]
        simp [exceptIsOk]
      | ok results =>
        rw [← ih, hr]
        simp [exceptIsOk]

/-- Claim C2: for every ChangeEvent over any name set and any driver,
process returns true exactly when no per-name handler invocation raises;
the individual Bool results the driver returns never influence the outcome,
and any raised exception makes the whole event report false. -/
theorem process_true_iff_no_handler_exception (e : ContentChangeEvent)
    (d : Finset Name) (hd : e.difference = some d) :
    e.process = true ↔ ∀ n ∈ d, exceptIsOk (e.handle n) = true := by
  simp only [ContentChangeEvent.process, hd, runHandles_isOk, List.all_eq_true,
    pySetToList, Finset.mem_sort]

/-- A driver whose uploads all succeed as calls but report False as their
per-file flag, exercising the asymmetry between raised exceptions and
returned flags. -/
def c2driver : FileStoreDriver where
  get_local_file_listing := Except.ok ∅
  upload_to_remote := fun _ => Except.ok false
  remove_from_remote := fun _ => Except.ok false
  pull_all_remote_files := Except.ok []

/-- An addition event over one name whose driver reports False without
raising. -/
def c2event : ContentChangeEvent where
  change_type := ChangeType.addition
  file_store_driver := c2driver
  difference := some {"a"}

/-- Witness for claim C2: the concrete event whose only handler call returns
False without raising still processes to true. -/
theorem process_true_iff_no_handler_exception_witness : c2event.process = true :=
  (process_true_iff_no_handler_exception c2event {"a"} rfl).mpr (by decide)

/-- Claim C9: an event whose name set is empty processes to true and invokes
no driver operation at all. -/
theorem process_empty_difference (e : ContentChangeEvent)
    (hd : e.difference = some (∅ : Finset Name)) :
    e.process = true ∧ e.driverInvocations = [] := by
  refine ⟨?_, ?_⟩ <;>
    simp [ContentChangeEvent.process, ContentChangeEvent.driverInvocations, hd,
      pySetToList, Finset.sort_empty, runHandles, handledNames, exceptIsOk]

/-- A removal-side driver for the empty-difference scenario. -/
def c9driver : FileStoreDriver where
  get_local_file_listing := Except.ok ∅
  upload_to_remote := fun _ => Except.ok true
  remove_from_remote := fun _ => Except.ok true
  pull_all_remote_files := Except.ok []

/-- A removal event carrying an empty difference set. -/
def c9event : ContentChangeEvent where
  change_type := ChangeType.removal
  file_store_driver := c9driver
  difference := some (∅ : Finset Name)

/-- Witness for claim C9: the concrete empty-difference event processes to
true with an empty invocation list. -/
theorem process_empty_difference_witness :
    c9event.process = true ∧ c9event.driverInvocations = [] :=
  process_empty_difference c9event rfl

/-- Claim C5: forcing the change-event generator of a client on which
store_local_snapshot has never been called fails with the ValueError state
error; no events, in particular none with empty difference sets, are
produced. -/
theorem get_change_events_state_error_when_never_captured (d : FileStoreDriver) :
    (StorageClient.get_change_events
        { file_storage := d, current_local_contents := none }).force =
      Except.error (PyError.valueError "Local snapshot have not been stored!") :=
  rfl

/-- A driver for the never-captured scenarios. -/
def c5driver : FileStoreDriver where
  get_local_file_listing := Except.ok {"a"}
  upload_to_remote := fun _ => Except.ok true
  remove_from_remote := fun _ => Except.ok true
  pull_all_remote_files := Except.ok []

/-- Witness for claim C5 at a concrete driver. -/
theorem get_change_events_state_error_witness :
    (StorageClient.get_change_events
        { file_storage := c5driver, current_local_contents := none }).force =
      Except.error (PyError.valueError "Local snapshot have not been stored!") :=
  get_change_events_state_error_when_never_captured c5driver

/-- Claim C10: get_change_events is lazy.  Calling it on a client with no
stored snapshot raises nothing: it returns the generator closed over the
client, and the body has not run.  The ValueError surfaces only when the
first event is requested from the generator. -/
theorem get_change_events_generator_is_lazy (d : FileStoreDriver) :
    StorageClient.get_change_events
        { file_storage := d, current_local_contents := none } =
      { client := { file_storage := d, current_local_contents := none } } ∧
    (StorageClient.get_change_events
        { file_storage := d, current_local_contents := none }).next_event =
      Except.error (PyError.valueError "Local snapshot have not been stored!") :=
  ⟨rfl, rfl⟩

/-- A driver for the laziness scenario. -/
def c10driver : FileStoreDriver where
  get_local_file_listing := Except.ok {"b"}
  upload_to_remote := fun _ => Except.ok true
  remove_from_remote := fun _ => Except.ok true
  pull_all_remote_files := Except.ok []

/-- Witness for claim C10 at a concrete driver. -/
theorem get_change_events_generator_is_lazy_witness :
    StorageClient.get_change_events
        { file_storage := c10driver, current_local_contents := none } =
      { client := { file_storage := c10driver, current_local_contents := none } } ∧
    (StorageClient.get_change_events
        { file_storage := c10driver, current_local_contents := none }).next_event =
      Except.error (PyError.valueError "Local snapshot have not been stored!") :=
  get_change_events_generator_is_lazy c10driver

/-- A driver whose local listing is the singleton set containing "a". -/
def c1driver : FileStoreDriver where
  get_local_file_listing := Except.ok {"a"}
  upload_to_remote := fun _ => Except.ok true
  remove_from_remote := fun _ => Except.ok true
  pull_all_remote_files := Except.ok []

/-- A client whose stored snapshot is the empty set while the current local
listing is the singleton containing "a": the state reached by capturing a
snapshot of an empty directory and then adding one file. -/
def c1client : StorageClient where
  file_storage := c1driver
  current_local_contents := some ∅

/-- Claim C1, behaviour at the failing input: with stored snapshot S_prev
equal to the empty set and current listing containing "a", the code raises
ValueError instead of producing the removal set (empty) and the addition set
(containing "a").  The truthiness test in get_last_local_snapshot treats the
stored empty snapshot as absent. -/
theorem change_events_lost_for_empty_stored_snapshot :
    (c1client.get_change_events).force =
      Except.error (PyError.valueError "Local snapshot have not been stored!") :=
  rfl

/-- A driver whose local listing is empty. -/
def c3driver : FileStoreDriver where
  get_local_file_listing := Except.ok ∅
  upload_to_remote := fun _ => Except.ok true
  remove_from_remote := fun _ => Except.ok true
  pull_all_remote_files := Except.ok []

/-- A freshly constructed client over the empty-directory driver. -/
def c3client : StorageClient where
  file_storage := c3driver
  current_local_contents := none

/-- Claim C3, behaviour at the failing input: store_local_snapshot succeeds
and stores the (empty) snapshot, yet get_last_local_snapshot on the
resulting state raises the very ValueError that its message reserves for a
snapshot that was never stored. -/
theorem snapshot_lookup_fails_after_empty_capture :
    c3client.store_local_snapshot =
      Except.ok { file_storage := c3driver, current_local_contents := some ∅ } ∧
    StorageClient.get_last_local_snapshot
        { file_storage := c3driver, current_local_contents := some ∅ } =
      Except.error (PyError.valueError "Local snapshot have not been stored!") :=
  ⟨rfl, rfl⟩

/-- A driver with an empty local listing for the two-events claim. -/
def c4driver : FileStoreDriver where
  get_local_file_listing := Except.ok ∅
  upload_to_remote := fun _ => Except.ok true
  remove_from_remote := fun _ => Except.ok true
  pull_all_remote_files := Except.ok []

/-- A client holding a stored empty snapshot over an empty listing, the case
in which both difference sets would be empty. -/
def c4client : StorageClient where
  file_storage := c4driver
  current_local_contents := some ∅

/-- Claim C4, behaviour at the failing input: with a stored empty snapshot
(both difference sets empty), forcing the generator raises ValueError and
yields zero events rather than the promised two. -/
theorem change_events_not_two_for_empty_stored_snapshot :
    (c4client.get_change_events).force =
      Except.error (PyError.valueError "Local snapshot have not been stored!") :=
  rfl

/-- A driver over an empty local directory for the snapshot-twice claim. -/
def c8driver : FileStoreDriver where
  get_local_file_listing := Except.ok ∅
  upload_to_remote := fun _ => Except.ok true
  remove_from_remote := fun _ => Except.ok true
  pull_all_remote_files := Except.ok []

/-- Claim C8, behaviour at the failing input: with the local listing L equal
to the empty set, capturing a snapshot succeeds, but the immediately
following diff raises ValueError instead of yielding two events with empty
difference sets. -/
theorem snapshot_then_immediate_diff_raises_on_empty_listing :
    StorageClient.store_local_snapshot
        { file_storage := c8driver, current_local_contents := none } =
      Except.ok { file_storage := c8driver, current_local_contents := some ∅ } ∧
    (StorageClient.get_change_events
        { file_storage := c8driver, current_local_contents := some ∅ }).force =
      Except.error (PyError.valueError "Local snapshot have not been stored!") :=
  ⟨rfl, rfl⟩

/-- When the stored snapshot is nonempty and the local listing succeeds,
forcing the generator yields exactly the removal event and then the addition
event, carrying the two set differences. -/
theorem force_ok_of_stored_nonempty (c : StorageClient) (s curr : Finset Name)
    (hs : c.current_local_contents = some s) (hne : ¬ s = ∅)
    (hc : c.file_storage.get_local_file_listing = Except.ok curr) :
    (c.get_change_events).force =
      Except.ok
        [ { change_type := ChangeType.removal, file_store_driver := c.file_storage,
            difference := some (s \ curr) },
          { change_type := ChangeType.addition, file_store_driver := c.file_storage,
            difference := some (curr \ s) } ] := by
  simp [ChangeEventGenerator.force, StorageClient.get_change_events,
    StorageClient.get_last_local_snapshot, StorageClient.get_local_contents,
    hs, hne, hc]

/-- The two difference sets the generator computes are disjoint, and removing
the removal set from the previous snapshot and adding the addition set
reconstructs the current listing. -/
theorem change_events_difference_algebra (s curr : Finset Name) :
    Disjoint (s \ curr) (curr \ s) ∧ (s \ (s \ curr)) ∪ (curr \ s) = curr := by
  constructor
  · exact disjoint_sdiff_sdiff
  · ext x
    simp only [Finset.mem_union, Finset.mem_sdiff]
    tauto

/-- When the listing is nonempty, capturing a snapshot and immediately
diffing against the unchanged listing yields the two events with empty
difference sets, as the spec describes; only the empty listing escapes
this. -/
theorem snapshot_then_diff_empty_of_nonempty (d : FileStoreDriver) (L : Finset Name)
    (hL : ¬ L = ∅) (hd : d.get_local_file_listing = Except.ok L) :
    (StorageClient.get_change_events
        { file_storage := d, current_local_contents := some L }).force =
      Except.ok
        [ { change_type := ChangeType.removal, file_store_driver := d,
            difference := some (∅ : Finset Name) },
          { change_type := ChangeType.addition, file_store_driver := d,
            difference := some (∅ : Finset Name) } ] := by
  have h := force_ok_of_stored_nonempty
    { file_storage := d, current_local_contents := some L } L L rfl hL hd
  simpa [Finset.sdiff_self] using h

/-- Claim C6 (amended): sync_data_after_change absorbs failures of the
per-name driver operations (each event processes to a Bool, never raising),
but it does not catch failures of the change-event computation itself: when
forcing the generator fails (missing or empty stored snapshot, or a failing
local listing), the error propagates unchanged to the caller. -/
theorem sync_after_change_propagation_policy (p : SynchronizerPlugin) :
    (∀ evs, (p.storage_client.get_change_events).force = Except.ok evs →
        p.sync_data_after_change =
          Except.ok (evs.map (fun ev => p.storage_client.upload_to_remote ev))) ∧
    (∀ err, (p.storage_client.get_change_events).force = Except.error err →
        p.sync_data_after_change = Except.error err) := by
  constructor
  · intro evs h
    simp [SynchronizerPlugin.sync_data_after_change, h]
  · intro err h
    simp [SynchronizerPlugin.sync_data_after_change, h]

/-- A driver whose local listing raises, standing for os.listdir failing
during the post-work phase. -/
def c6driver : FileStoreDriver where
  get_local_file_listing := Except.error PyError.osError
  upload_to_remote := fun _ => Except.ok true
  remove_from_remote := fun _ => Except.ok true
  pull_all_remote_files := Except.ok []

/-- A plugin whose client holds a valid nonempty snapshot but whose local
enumeration fails afterwards. -/
def c6plugin : SynchronizerPlugin where
  storage_client := { file_storage := c6driver, current_local_contents := some {"a"} }

/-- Counterexample to claim C6 as stated: a failure arising during post-work
synchronization (the local listing raising while the change events are
computed) is not absorbed; sync_data_after_change propagates it to the
caller. -/
theorem sync_after_change_failure_escapes :
    c6plugin.sync_data_after_change = Except.error PyError.osError :=
  rfl

/-- A driver for the propagation-policy witness. -/
def c6wdriver : FileStoreDriver where
  get_local_file_listing := Except.ok ∅
  upload_to_remote := fun _ => Except.ok true
  remove_from_remote := fun _ => Except.ok true
  pull_all_remote_files := Except.ok []

/-- A plugin whose client never captured a snapshot. -/
def c6wplugin : SynchronizerPlugin where
  storage_client := { file_storage := c6wdriver, current_local_contents := none }

/-- Witness for the amended claim C6: on a concrete plugin whose generator
fails with the state error, sync_data_after_change propagates exactly that
error. -/
theorem sync_after_change_propagation_policy_witness :
    c6wplugin.sync_data_after_change =
      Except.error (PyError.valueError "Local snapshot have not been stored!") :=
  (sync_after_change_propagation_policy c6wplugin).2
    (PyError.valueError "Local snapshot have not been stored!") rfl

/-- Claim C7: pull_all_remote_files copies each name returned by the remote
enumeration and returns one success flag per name (as many flags as there
are names); an individual copy failure only makes its own flag false, never
the whole operation, and the operation propagates an exception exactly when
the remote enumeration itself raises. -/
theorem pull_all_remote_files_spec (fs : LocalFS) (m : StandardFileStoreManager) :
    (∀ s, fs.listdir m.sync_directory_path = Except.ok s →
        LocalFileStoreManager.pull_all_remote_files fs m =
          Except.ok ((pySetToList s).map
            (fun n => LocalFileStoreManager.copy_from_remote fs m n)) ∧
        ((pySetToList s).map
            (fun n => LocalFileStoreManager.copy_from_remote fs m n)).length = s.card) ∧
    (∀ err, fs.listdir m.sync_directory_path = Except.error err →
        LocalFileStoreManager.pull_all_remote_files fs m = Except.error err) := by
  constructor
  · intro s hs
    refine ⟨?_, ?_⟩
    · simp [LocalFileStoreManager.pull_all_remote_files,
        LocalFileStoreManager.get_remote_file_names, hs]
    · simp [pySetToList, List.length_map, Finset.length_sort]
  · intro err hs
    simp [LocalFileStoreManager.pull_all_remote_files,
      LocalFileStoreManager.get_remote_file_names, hs]

/-- A filesystem in which the remote listing succeeds with one file while
every copy fails. -/
def c7fs : LocalFS where
  listdir := fun _ => Except.ok {"x"}
  shutil_copy := fun _ _ => Except.error PyError.osError
  os_remove := fun _ => Except.ok ()

/-- A manager over the default development directories. -/
def c7mgr : StandardFileStoreManager where
  local_directory := "./packages"
  remote_directory := "./.remote_packages/"

/-- Witness for claim C7: with one remote file whose copy fails, the
operation still succeeds and reports the single false flag. -/
theorem pull_all_remote_files_spec_witness :
    LocalFileStoreManager.pull_all_remote_files c7fs c7mgr = Except.ok [false] := by
  have h := ((pull_all_remote_files_spec c7fs c7mgr).1 {"x"} rfl).1
  rw [h]
  rw [pySetToList, Finset.sort_singleton]
  rfl
